import Mathlib

/-!
Verification of the diottrio blur model, render loop, source-selection
policy and display formatting, shallowly embedded from diottrio.js.
Diopter values and blur radii are modelled as real numbers; the render
loop is modelled as an explicit state-transition function; the camera
initialization as a function of the acquisition outcome.
-/

namespace Diottrio

/-- Constant DOMINANT_WEIGHT = 0.65 from diottrio.js. -/
def DOMINANT_WEIGHT : ℝ := 0.65

/-- Constant BLUR_BASE = 1.4 from diottrio.js. -/
def BLUR_BASE : ℝ := 1.4

/-- Constant BLUR_EXPONENT = 1.1 from diottrio.js. -/
def BLUR_EXPONENT : ℝ := 1.1

/-- The three module-level variables read by calculateBinocularBlur:
leftDiopters, rightDiopters, isDominantLeft. -/
structure EyeConfig where
  leftDiopters : ℝ
  rightDiopters : ℝ
  isDominantLeft : Bool

/-- calculateBlur from diottrio.js:
`diopters === 0 ? 0 : BLUR_BASE * Math.pow(diopters, BLUR_EXPONENT)`. -/
noncomputable def calculateBlur (diopters : ℝ) : ℝ :=
  if diopters = 0 then 0 else BLUR_BASE * diopters ^ BLUR_EXPONENT

/-- calculateBinocularBlur from diottrio.js, reading the module state. -/
noncomputable def calculateBinocularBlur (s : EyeConfig) : ℝ :=
  let dominantDiopters := if s.isDominantLeft then s.leftDiopters else s.rightDiopters
  let nonDominantDiopters := if s.isDominantLeft then s.rightDiopters else s.leftDiopters
  let weightedDiopters :=
    dominantDiopters * DOMINANT_WEIGHT + nonDominantDiopters * (1 - DOMINANT_WEIGHT)
  calculateBlur weightedDiopters

/-- Reference definition taken from the words of the spec:
`computeMonocularBlur(diopters) = 0` when `diopters == 0`,
else `base * diopters^exponent` with base = 1.4, exponent = 1.1. -/
noncomputable def computeMonocularBlur (diopters : ℝ) : ℝ :=
  if diopters = 0 then 0 else 1.4 * diopters ^ (1.1 : ℝ)

/-- Reference definition taken from the words of the spec:
`dominant = isDominantLeft ? left : right`, `nonDominant` the other,
`weighted = dominant*0.65 + nonDominant*0.35`, result
`computeMonocularBlur(weighted)`. -/
noncomputable def computeBinocularBlur (left right : ℝ) (isDominantLeft : Bool) : ℝ :=
  let dominant := if isDominantLeft then left else right
  let nonDominant := if isDominantLeft then right else left
  computeMonocularBlur (dominant * 0.65 + nonDominant * 0.35)

/-- C1: for non-negative diopters and either dominance flag, the code
function calculateBinocularBlur agrees exactly with the spec definition
computeBinocularBlur, in particular the code coefficient
1 - DOMINANT_WEIGHT equals the spec coefficient 0.35. -/
theorem calculateBinocularBlur_matches_spec (left right : ℝ) (isDominantLeft : Bool)
    (hl : 0 ≤ left) (hr : 0 ≤ right) :
    calculateBinocularBlur ⟨left, right, isDominantLeft⟩ =
      computeBinocularBlur left right isDominantLeft := by
  cases isDominantLeft <;>
    simp only [calculateBinocularBlur, computeBinocularBlur, calculateBlur,
      computeMonocularBlur, DOMINANT_WEIGHT, BLUR_BASE, BLUR_EXPONENT] <;>
    norm_num

/-- Witness for C1 at left = 1, right = 2, isDominantLeft = true. -/
theorem calculateBinocularBlur_matches_spec_witness :
    (0:ℝ) ≤ 1 ∧ (0:ℝ) ≤ 2 ∧
      calculateBinocularBlur ⟨1, 2, true⟩ = computeBinocularBlur 1 2 true :=
  ⟨by norm_num, by norm_num,
    calculateBinocularBlur_matches_spec 1 2 true (by norm_num) (by norm_num)⟩

/-- C2: for non-negative diopters, calculateBlur agrees with the spec
definition computeMonocularBlur: it returns 0 at 0 and
1.4 * diopters ^ 1.1 otherwise. -/
theorem calculateBlur_matches_spec (d : ℝ) (hd : 0 ≤ d) :
    calculateBlur d = computeMonocularBlur d ∧
      (d = 0 → calculateBlur d = 0) ∧
      (d ≠ 0 → calculateBlur d = 1.4 * d ^ (1.1 : ℝ)) := by
  refine ⟨?_, ?_, ?_⟩
  · simp only [calculateBlur, computeMonocularBlur, BLUR_BASE, BLUR_EXPONENT]
  · intro h
    simp [calculateBlur, h]
  · intro h
    simp only [calculateBlur, BLUR_BASE, BLUR_EXPONENT, if_neg h]

/-- Witness for C2 at d = 2. -/
theorem calculateBlur_matches_spec_witness :
    (0:ℝ) ≤ 2 ∧
      (calculateBlur 2 = computeMonocularBlur 2 ∧
        ((2:ℝ) = 0 → calculateBlur 2 = 0) ∧
        ((2:ℝ) ≠ 0 → calculateBlur 2 = 1.4 * (2:ℝ) ^ (1.1 : ℝ))) :=
  ⟨by norm_num, calculateBlur_matches_spec 2 (by norm_num)⟩

/-- C3: calculateBlur vanishes at 0 and is strictly increasing on
positive diopters. -/
theorem calculateBlur_zero_and_strictMono :
    calculateBlur 0 = 0 ∧
      ∀ d₁ d₂ : ℝ, 0 < d₁ → d₁ < d₂ → calculateBlur d₁ < calculateBlur d₂ := by
  constructor
  · simp [calculateBlur]
  · intro d₁ d₂ h₁ h₂
    rw [calculateBlur, calculateBlur, if_neg (ne_of_gt h₁),
      if_neg (ne_of_gt (h₁.trans h₂))]
    have hpow : d₁ ^ BLUR_EXPONENT < d₂ ^ BLUR_EXPONENT :=
      Real.rpow_lt_rpow h₁.le h₂ (by norm_num [BLUR_EXPONENT])
    have hb : (0:ℝ) < BLUR_BASE := by norm_num [BLUR_BASE]
    exact mul_lt_mul_of_pos_left hpow hb

/-- Witness for C3 at d₁ = 1, d₂ = 2. -/
theorem calculateBlur_zero_and_strictMono_witness :
    calculateBlur 0 = 0 ∧
      (0 < (1:ℝ) ∧ (1:ℝ) < 2 ∧ calculateBlur 1 < calculateBlur 2) :=
  ⟨calculateBlur_zero_and_strictMono.1, by norm_num, by norm_num,
    calculateBlur_zero_and_strictMono.2 1 2 (by norm_num) (by norm_num)⟩

/-- C4: for non-negative diopters, swapping the two diopter values while
flipping the dominance flag leaves the binocular blur unchanged. -/
theorem calculateBinocularBlur_swap (left right : ℝ)
    (hl : 0 ≤ left) (hr : 0 ≤ right) :
    calculateBinocularBlur ⟨left, right, true⟩ =
      calculateBinocularBlur ⟨right, left, false⟩ := by
  simp [calculateBinocularBlur]

/-- Witness for C4 at left = 3, right = 5. -/
theorem calculateBinocularBlur_swap_witness :
    (0:ℝ) ≤ 3 ∧ (0:ℝ) ≤ 5 ∧
      calculateBinocularBlur ⟨3, 5, true⟩ = calculateBinocularBlur ⟨5, 3, false⟩ :=
  ⟨by norm_num, by norm_num,
    calculateBinocularBlur_swap 3 5 (by norm_num) (by norm_num)⟩

/-- C10: when both eyes carry the same non-negative diopter value d, the
binocular blur collapses to the monocular blur of d, for either value of
the dominance flag, because DOMINANT_WEIGHT + (1 - DOMINANT_WEIGHT) = 1. -/
theorem calculateBinocularBlur_equal_eyes (d : ℝ) (b : Bool) (hd : 0 ≤ d) :
    calculateBinocularBlur ⟨d, d, b⟩ = calculateBlur d := by
  have hw : d * DOMINANT_WEIGHT + d * (1 - DOMINANT_WEIGHT) = d := by ring
  simp only [calculateBinocularBlur, ite_self, hw]

/-- Witness for C10 at d = 7, flag = false. -/
theorem calculateBinocularBlur_equal_eyes_witness :
    (0:ℝ) ≤ 7 ∧ calculateBinocularBlur ⟨7, 7, false⟩ = calculateBlur 7 :=
  ⟨by norm_num, calculateBinocularBlur_equal_eyes 7 false (by norm_num)⟩

/-- HTMLMediaElement readyState threshold HAVE_CURRENT_DATA, the value
compared against in startBlurRender via
`video.readyState >= video.HAVE_CURRENT_DATA`. -/
def HAVE_CURRENT_DATA : ℕ := 2

/-- State visible to one execution of the render callback installed by
startBlurRender: the eye variables, the video readyState, the pending
animation-frame registration tracked by the module variable
animationFrameId, and the blur radius last painted onto the canvas by
applySimpleBlur (none while nothing has been drawn). -/
structure LoopState where
  eyes : EyeConfig
  readyState : ℕ
  animationFrameId : Option ℕ
  lastBlur : Option ℝ

/-- One execution of the render callback from startBlurRender: when the
video has a decodable frame, recompute the binocular blur and draw it;
in every case re-register via requestAnimationFrame, which returns the
fresh identifier newId. -/
noncomputable def render (s : LoopState) (newId : ℕ) : LoopState :=
  let s₁ :=
    if HAVE_CURRENT_DATA ≤ s.readyState then
      { s with lastBlur := some (calculateBinocularBlur s.eyes) }
    else s
  { s₁ with animationFrameId := some newId }

/-- The beforeunload handler: when an animation frame is pending, cancel
it via cancelAnimationFrame, so that no callback remains registered. -/
def beforeunload (s : LoopState) : LoopState :=
  if s.animationFrameId.isSome then { s with animationFrameId := none } else s

/-- After any chain of render executions the registration stays alive. -/
theorem foldl_render_isSome (ids : List ℕ) :
    ∀ s : LoopState, s.animationFrameId.isSome = true →
      ((ids.foldl render s).animationFrameId).isSome = true := by
  induction ids with
  | nil => intro s h; exact h
  | cons i t ih =>
      intro s _
      exact ih (render s i) (by simp [render])

/-- C6: every execution of the render callback re-registers itself, for
every readyState; the readyState check gates only the drawing, which is
skipped below HAVE_CURRENT_DATA; a chain of further executions never
drops the registration; only the beforeunload teardown leaves no
registration pending. -/
theorem render_always_reschedules (s : LoopState) (newId : ℕ) :
    (render s newId).animationFrameId = some newId ∧
      ((render s newId).lastBlur =
        if HAVE_CURRENT_DATA ≤ s.readyState then
          some (calculateBinocularBlur s.eyes)
        else s.lastBlur) ∧
      (∀ ids : List ℕ,
        ((ids.foldl render (render s newId)).animationFrameId).isSome = true) ∧
      (beforeunload s).animationFrameId = none := by
  refine ⟨?_, ?_, ?_, ?_⟩
  · simp only [render]
  · by_cases h : HAVE_CURRENT_DATA ≤ s.readyState <;> simp [render, h]
  · intro ids
    exact foldl_render_isSome ids (render s newId) (by simp [render])
  · by_cases h : s.animationFrameId.isSome <;> simp [beforeunload, h]
    · cases ha : s.animationFrameId with
      | none => rfl
      | some i => rw [ha] at h; simp at h

/-- C5: the blur painted by a render execution is a pure function of
exactly (leftDiopters, rightDiopters, isDominantLeft): two loop states
agreeing on those three variables but differing in everything else paint
the identical blur, and an immediately following render execution paints
it again unchanged. -/
theorem render_blur_deterministic (s t : LoopState) (id₁ id₂ : ℕ)
    (hL : s.eyes.leftDiopters = t.eyes.leftDiopters)
    (hR : s.eyes.rightDiopters = t.eyes.rightDiopters)
    (hD : s.eyes.isDominantLeft = t.eyes.isDominantLeft)
    (hs : HAVE_CURRENT_DATA ≤ s.readyState)
    (ht : HAVE_CURRENT_DATA ≤ t.readyState) :
    (render s id₁).lastBlur = some (calculateBinocularBlur s.eyes) ∧
      (render s id₁).lastBlur = (render t id₂).lastBlur ∧
      (render (render s id₁) id₂).lastBlur = (render s id₁).lastBlur := by
  have heyes : s.eyes = t.eyes := by
    cases hse : s.eyes with
    | mk a b c =>
        cases hte : t.eyes with
        | mk a₂ b₂ c₂ =>
            rw [hse, hte] at hL hR hD
            simp only at hL hR hD
            rw [hL, hR, hD]
  refine ⟨?_, ?_, ?_⟩
  · simp [render, hs]
  · simp [render, hs, ht, heyes]
  · simp [render, hs]

/-- A loop state used to witness C5. -/
def runningState : LoopState := ⟨⟨1, 2, true⟩, 2, none, none⟩

/-- A second loop state for C5, agreeing with runningState on the three
eye variables only. -/
def otherState : LoopState := ⟨⟨1, 2, true⟩, 3, some 9, some 42⟩

/-- Witness for C5 on runningState and otherState. -/
theorem render_blur_deterministic_witness :
    runningState.eyes.leftDiopters = otherState.eyes.leftDiopters ∧
      runningState.eyes.rightDiopters = otherState.eyes.rightDiopters ∧
      runningState.eyes.isDominantLeft = otherState.eyes.isDominantLeft ∧
      HAVE_CURRENT_DATA ≤ runningState.readyState ∧
      HAVE_CURRENT_DATA ≤ otherState.readyState ∧
      ((render runningState 1).lastBlur =
          some (calculateBinocularBlur runningState.eyes) ∧
        (render runningState 1).lastBlur = (render otherState 2).lastBlur ∧
        (render (render runningState 1) 2).lastBlur =
          (render runningState 1).lastBlur) :=
  ⟨rfl, rfl, rfl, by norm_num [runningState, HAVE_CURRENT_DATA],
    by norm_num [otherState, HAVE_CURRENT_DATA],
    render_blur_deterministic runningState otherState 1 2 rfl rfl rfl
      (by norm_num [runningState, HAVE_CURRENT_DATA])
      (by norm_num [otherState, HAVE_CURRENT_DATA])⟩

/-- The ways camera acquisition can fail inside initCamera. -/
inductive CameraError
  | permissionDenied
  | noDevice

/-- Which frame source ends up feeding the panels. -/
inductive FrameSource
  | deviceCamera
  | sampleVideo
deriving DecidableEq

/-- Outcome of initialization: the active frame source and the text
written to the sourceStatus label. -/
structure InitOutcome where
  source : FrameSource
  sourceStatus : String
deriving DecidableEq

/-- useFallbackVideo from diottrio.js: attach the bundled sample video
and set the status label text. -/
def useFallbackVideo : InitOutcome :=
  ⟨FrameSource.sampleVideo, "Source: Sample Video"⟩

/-- initCamera from diottrio.js: the awaited getUserMedia call either
resolves, after which the camera feeds the panels and the status label
reads Source: Device Camera, or rejects, and the catch block calls
useFallbackVideo. -/
def initCamera (getUserMedia : Except CameraError Unit) : InitOutcome :=
  match getUserMedia with
  | Except.ok _ => ⟨FrameSource.deviceCamera, "Source: Device Camera"⟩
  | Except.error _ => useFallbackVideo

/-- The source-selection step of init from diottrio.js:
`navigator.mediaDevices?.getUserMedia ? initCamera() : useFallbackVideo()`. -/
def init (hasGetUserMedia : Bool) (getUserMedia : Except CameraError Unit) :
    InitOutcome :=
  if hasGetUserMedia then initCamera getUserMedia else useFallbackVideo

/-- C7: on every camera-acquisition failure — rejection with permission
denied, rejection with no device, or the getUserMedia API being absent —
initialization lands on useFallbackVideo, whose status label text is
Source: Sample Video and not the camera text. -/
theorem camera_failure_falls_back (err : CameraError)
    (res : Except CameraError Unit) :
    init true (Except.error err) = useFallbackVideo ∧
      init false res = useFallbackVideo ∧
      useFallbackVideo.source = FrameSource.sampleVideo ∧
      useFallbackVideo.sourceStatus = "Source: Sample Video" ∧
      useFallbackVideo.sourceStatus ≠ "Source: Device Camera" :=
  ⟨rfl, rfl, rfl, rfl, by decide⟩

/-- Number.prototype.toFixed 2, modelled on rationals: the value is
scaled by 100, rounded to the nearest integer, and printed with a
decimal point before the last two digits (slider values are exact
multiples of 1/100, where toFixed introduces no rounding surprises). -/
def toFixed2 (q : ℚ) : String :=
  let n : ℤ := round (q * 100)
  toString (n / 100) ++ "." ++ (if n % 100 < 10 then "0" else "") ++ toString (n % 100)

/-- updateEyeDisplay from diottrio.js: the display text is
`-${diopters.toFixed(2)}` when diopters > 0 and the literal 0.00
otherwise. -/
def updateEyeDisplay (diopters : ℚ) : String :=
  if 0 < diopters then "-" ++ toFixed2 diopters else "0.00"

/-- A string starting with the minus sign is never the zero display. -/
theorem dash_append_ne_zero_display (s : String) : "-" ++ s ≠ "0.00" := by
  intro h
  have h₂ : ('-' :: s.data) = ['0', '.', '0', '0'] := congrArg String.data h
  simp at h₂

/-- C9: for every diopter value written by an input control, the display
text is the negated value rendered with two decimals when the value is
positive, and the literal 0.00 otherwise; the two shapes are disjoint. -/
theorem updateEyeDisplay_shape (d : ℚ) :
    (0 < d →
      updateEyeDisplay d = "-" ++ toFixed2 d ∧ updateEyeDisplay d ≠ "0.00") ∧
      (¬ 0 < d → updateEyeDisplay d = "0.00") := by
  constructor
  · intro h
    refine ⟨if_pos h, ?_⟩
    show (if 0 < d then "-" ++ toFixed2 d else "0.00") ≠ "0.00"
    rw [if_pos h]
    exact dash_append_ne_zero_display (toFixed2 d)
  · intro h
    exact if_neg h

/-- Witness for C9 at d = 13/4 (slider value 3.25) and d = 0. -/
theorem updateEyeDisplay_shape_witness :
    (0 < (13/4 : ℚ) ∧
      (updateEyeDisplay (13/4) = "-" ++ toFixed2 (13/4) ∧
        updateEyeDisplay (13/4) ≠ "0.00")) ∧
      (¬ 0 < (0 : ℚ) ∧ updateEyeDisplay 0 = "0.00") :=
  ⟨⟨by norm_num, (updateEyeDisplay_shape (13/4)).1 (by norm_num)⟩,
    ⟨by norm_num, (updateEyeDisplay_shape 0).2 (by norm_num)⟩⟩

/-- Numeric bounds on the power 1.95 ^ 1.1, obtained by comparing tenth
powers with 1.95 ^ 11. -/
theorem rpow_195_11_bounds :
    2.084 < (1.95:ℝ) ^ (1.1:ℝ) ∧ (1.95:ℝ) ^ (1.1:ℝ) < 2.085 := by
  have h0 : (0:ℝ) ≤ 1.95 := by norm_num
  have hy : (0:ℝ) ≤ (1.95:ℝ) ^ (1.1:ℝ) := Real.rpow_nonneg h0 _
  have key : ((1.95:ℝ) ^ (1.1:ℝ)) ^ (10:ℕ) = (1.95:ℝ) ^ (11:ℕ) := by
    rw [← Real.rpow_natCast ((1.95:ℝ) ^ (1.1:ℝ)) 10, ← Real.rpow_mul h0,
      ← Real.rpow_natCast (1.95:ℝ) 11]
    norm_num
  constructor
  · have h₁ : (2.084:ℝ) ^ (10:ℕ) < ((1.95:ℝ) ^ (1.1:ℝ)) ^ (10:ℕ) := by
      rw [key]; norm_num
    exact (pow_lt_pow_iff_left₀ (by norm_num) hy (by norm_num)).mp h₁
  · have h₂ : ((1.95:ℝ) ^ (1.1:ℝ)) ^ (10:ℕ) < (2.085:ℝ) ^ (10:ℕ) := by
      rw [key]; norm_num
    exact (pow_lt_pow_iff_left₀ hy (by norm_num) (by norm_num)).mp h₂

/-- The binocular blur at left = 3, right = 0, left dominant, in closed
form. -/
theorem binocular_3_0_left_closed_form :
    calculateBinocularBlur ⟨3, 0, true⟩ = 1.4 * (1.95:ℝ) ^ (1.1:ℝ) := by
  have hw : (3:ℝ) * DOMINANT_WEIGHT + 0 * (1 - DOMINANT_WEIGHT) = 1.95 := by
    norm_num [DOMINANT_WEIGHT]
  simp only [calculateBinocularBlur, ite_true, hw, calculateBlur, BLUR_BASE,
    BLUR_EXPONENT]
  norm_num

/-- C8 counterexample: at left = 3, right = 0, left dominant, the blur
is not approximately 2.84 — it differs from 2.84 by more than 0.05. -/
theorem scenario_blur_far_from_2_84 :
    ¬ |calculateBinocularBlur ⟨3, 0, true⟩ - 2.84| ≤ 0.05 := by
  have hb := rpow_195_11_bounds
  have hval := binocular_3_0_left_closed_form
  intro h
  have hlow : (2.9176:ℝ) < calculateBinocularBlur ⟨3, 0, true⟩ := by
    rw [hval]; nlinarith [hb.1]
  have habs := (abs_le.mp h).2
  linarith

/-- C8 (amended): with left = 3, right = 0 and left dominant, the
weighted diopters equal 3 * 0.65 = 1.95 and the binocular blur equals
1.4 * 1.95 ^ 1.1, which is approximately 2.92 (strictly between 2.91
and 2.92). -/
theorem scenario_left3_right0_blur :
    (3:ℝ) * DOMINANT_WEIGHT = 1.95 ∧
      calculateBinocularBlur ⟨3, 0, true⟩ = 1.4 * (1.95:ℝ) ^ (1.1:ℝ) ∧
      2.91 < calculateBinocularBlur ⟨3, 0, true⟩ ∧
      calculateBinocularBlur ⟨3, 0, true⟩ < 2.92 := by
  have hb := rpow_195_11_bounds
  have hval := binocular_3_0_left_closed_form
  refine ⟨by norm_num [DOMINANT_WEIGHT], hval, ?_, ?_⟩
  · rw [hval]; nlinarith [hb.1]
  · rw [hval]; nlinarith [hb.2]

end Diottrio
